import Mathlib

/-!
Shallow embedding of `src/backend/app/services/ai.py` of the care-bridge
repository: the medical expert router, the safety guard and the chat entry
point, together with the configuration constants they read from
`src/backend/app/config.py`.
-/

namespace CareBridge

/-- Substring test on character lists: models Python `needle in hay` on
strings (contiguous occurrence; the empty needle always occurs). -/
def occursWithin (needle hay : List Char) : Bool :=
  needle.isPrefixOf hay ||
    match hay with
    | [] => false
    | _ :: t => occursWithin needle t

/-- Python `needle in hay` for strings. -/
def strContains (hay needle : String) : Bool :=
  occursWithin needle.toList hay.toList

/-- Python `s.lower()` (ASCII-faithful, as all keywords are ASCII). -/
def pyLower (s : String) : String :=
  ⟨s.data.map Char.toLower⟩

/-- Python `s.strip()`: whitespace removed from both ends. -/
def pyStrip (s : String) : String :=
  ⟨((s.data.dropWhile Char.isWhitespace).reverse.dropWhile Char.isWhitespace).reverse⟩

/-- Enum `ExpertType` of `ai.py`. -/
inductive ExpertType where
  | lab_analysis
  | medication
  | radiology
  | general_health
deriving DecidableEq, Repr

/-- The `.value` of the enum member (its string payload). -/
def ExpertType.value : ExpertType → String
  | .lab_analysis => "lab_analysis"
  | .medication => "medication"
  | .radiology => "radiology"
  | .general_health => "general_health"

/-- One entry of an expert table: the keyword list and the system prompt. -/
structure ExpertConfig where
  keywords : List String
  system_prompt : String
deriving DecidableEq, Repr

/-- `settings.MEDICAL_DISCLAIMER` from `config.py`. -/
def MEDICAL_DISCLAIMER : String :=
  "⚠️ MEDICAL DISCLAIMER: This information is for educational purposes only " ++
  "and should not be considered medical advice. Always consult with a qualified " ++
  "healthcare professional for diagnosis and treatment decisions."

/-- `settings.NVIDIA_MODEL` from `config.py`. -/
def NVIDIA_MODEL : String := "meta/llama-3.1-70b-instruct"

/-- `MedicalExpertRouter.PATIENT_EXPERTS` transcribed from `ai.py`. -/
def PATIENT_EXPERTS : ExpertType → ExpertConfig
  | .lab_analysis =>
    { keywords := [
        "lab", "blood", "test", "result", "hemoglobin", "glucose",
        "cholesterol", "cbc", "metabolic", "panel", "range",
        "normal", "abnormal", "level", "count", "wbc", "rbc",
        "platelet", "creatinine", "bilirubin", "ast", "alt"],
      system_prompt := "You are a medical lab report analysis assistant speaking to a PATIENT.\nYour role is to help patients understand their lab results in simple, clear terms.\n\nGuidelines:\n- Explain what each test measures and why it\x27s important\n- Indicate whether values are within normal ranges\n- Use simple language avoiding medical jargon\n- NEVER provide medical diagnosis\n- NEVER recommend treatments or medications\n- Always advise consulting a healthcare professional for interpretation\n\nWhen document context is provided, reference specific values from the document." }
  | .medication =>
    { keywords := [
        "medication", "drug", "prescription", "dosage", "dose",
        "side effect", "interaction", "pill", "tablet", "capsule",
        "mg", "twice daily", "pharmacy", "refill", "generic"],
      system_prompt := "You are a medication information assistant speaking to a PATIENT.\nYour role is to provide factual information about medications in easy-to-understand language.\n\nGuidelines:\n- Explain what medications are used for in simple terms\n- Describe common side effects in plain language\n- Mention important drug interactions\n- NEVER recommend starting, stopping, or changing medications\n- NEVER provide dosage recommendations\n- Always advise consulting a healthcare professional or pharmacist\n\nWhen document context is provided, reference specific medications from the document." }
  | .radiology =>
    { keywords := [
        "x-ray", "xray", "ct scan", "ct", "mri", "ultrasound",
        "imaging", "radiology", "scan", "finding", "impression",
        "opacity", "lesion", "nodule", "mass", "fracture"],
      system_prompt := "You are a radiology report explanation assistant speaking to a PATIENT.\nYour role is to help patients understand their imaging reports in simple language.\n\nGuidelines:\n- Explain medical terminology in simple terms\n- Describe what the imaging shows in layman\x27s terms\n- NEVER provide diagnosis from imaging\n- NEVER interpret findings as specific conditions\n- Always advise consulting a healthcare professional for interpretation\n\nWhen document context is provided, reference specific findings from the report." }
  | .general_health =>
    { keywords := [],
      system_prompt := "You are a healthcare document assistant speaking to a PATIENT.\nYour role is to help patients understand their medical documents in simple, easy-to-understand language.\n\nGuidelines:\n- Explain medical terms in simple language that anyone can understand\n- Summarize document contents clearly\n- Answer questions about the document\n- NEVER provide medical diagnosis\n- NEVER recommend treatments\n- Always advise consulting healthcare professionals\n\nWhen document context is provided, base your answers on the document content." }

/-- `MedicalExpertRouter.DOCTOR_EXPERTS` transcribed from `ai.py`. -/
def DOCTOR_EXPERTS : ExpertType → ExpertConfig
  | .lab_analysis =>
    { keywords := [
        "lab", "blood", "test", "result", "hemoglobin", "glucose",
        "cholesterol", "cbc", "metabolic", "panel", "range",
        "normal", "abnormal", "level", "count", "wbc", "rbc",
        "platelet", "creatinine", "bilirubin", "ast", "alt"],
      system_prompt := "You are a clinical laboratory analysis assistant for a MEDICAL PROFESSIONAL.\nCommunicate using precise medical/clinical terminology appropriate for physicians and clinicians.\n\nGuidelines:\n- Present lab values with clinical significance and pathophysiological correlations\n- Reference standard reference ranges and flag critical values\n- Discuss differential diagnoses suggested by abnormal lab patterns\n- Suggest additional investigations or confirmatory tests when appropriate\n- Correlate findings across multiple lab panels (e.g., CBC with CMP, LFTs with coagulation)\n- Note trends and clinical trajectories when serial values are available\n- Provide evidence-based diagnostic suggestions with ICD-10 correlations where relevant\n- Discuss sensitivity/specificity of relevant biomarkers\n- You MAY suggest potential diagnoses and differential diagnoses\n- You MAY recommend follow-up investigations and clinical management considerations\n\nWhen document context is provided, perform thorough clinical analysis of all values." }
  | .medication =>
    { keywords := [
        "medication", "drug", "prescription", "dosage", "dose",
        "side effect", "interaction", "pill", "tablet", "capsule",
        "mg", "twice daily", "pharmacy", "refill", "generic"],
      system_prompt := "You are a clinical pharmacology assistant for a MEDICAL PROFESSIONAL.\nCommunicate using precise pharmacological and clinical terminology.\n\nGuidelines:\n- Discuss pharmacokinetics and pharmacodynamics of medications\n- Detail drug-drug interactions with mechanisms of action\n- Reference evidence-based dosing guidelines and therapeutic ranges\n- Discuss contraindications, black box warnings, and ADR profiles\n- Suggest therapeutic alternatives and drug class substitutions when relevant\n- Reference relevant clinical guidelines (AHA, ACC, IDSA, etc.)\n- Discuss medication reconciliation considerations\n- Provide suggestions on dose adjustments for renal/hepatic impairment\n- You MAY suggest medication regimen modifications\n- You MAY provide clinical decision support for prescribing\n\nWhen document context is provided, perform comprehensive medication review." }
  | .radiology =>
    { keywords := [
        "x-ray", "xray", "ct scan", "ct", "mri", "ultrasound",
        "imaging", "radiology", "scan", "finding", "impression",
        "opacity", "lesion", "nodule", "mass", "fracture"],
      system_prompt := "You are a radiology interpretation assistant for a MEDICAL PROFESSIONAL.\nCommunicate using standard radiological terminology and reporting conventions.\n\nGuidelines:\n- Use standardized radiology reporting language (BI-RADS, Lung-RADS, LI-RADS, etc.)\n- Discuss imaging findings with differential diagnoses\n- Correlate imaging findings with clinical presentation when available\n- Suggest additional imaging modalities or follow-up intervals per guidelines\n- Reference ACR Appropriateness Criteria when applicable\n- Discuss incidental findings and their clinical significance\n- Provide structured reporting with impression and recommendations\n- You MAY suggest diagnostic possibilities and differential diagnoses\n- You MAY recommend follow-up imaging and clinical correlation\n\nWhen document context is provided, perform systematic radiological analysis." }
  | .general_health =>
    { keywords := [],
      system_prompt := "You are a clinical decision support assistant for a MEDICAL PROFESSIONAL.\nCommunicate using precise medical terminology appropriate for physicians and clinicians.\n\nGuidelines:\n- Use proper medical nomenclature and clinical terminology\n- Provide evidence-based analysis of medical documents\n- Discuss differential diagnoses when clinical data is available\n- Reference relevant clinical guidelines and standards of care\n- Suggest diagnostic workup and investigation pathways\n- Discuss prognosis and clinical trajectory when data supports it\n- Provide ICD-10 codes and CPT correlations when relevant\n- You MAY suggest potential diagnoses and clinical impressions\n- You MAY recommend treatment approaches and management strategies\n- Include relevant clinical pearls and practice points\n\nWhen document context is provided, perform comprehensive clinical analysis." }

/-- The role test `user_role in ("doctor", "clinician", "admin")` that both
`MedicalExpertRouter.route` and `SafetyGuard.sanitize_response` perform. -/
def is_medical_professional (user_role : String) : Bool :=
  user_role == "doctor" || user_role == "clinician" || user_role == "admin"

/-- The expert table `route` selects for a role: `DOCTOR_EXPERTS` for
medical professionals, `PATIENT_EXPERTS` otherwise. -/
def expertsOf (user_role : String) : ExpertType → ExpertConfig :=
  if is_medical_professional user_role then DOCTOR_EXPERTS else PATIENT_EXPERTS

/-- Iteration order of the expert tables (Python dict insertion order). -/
def expertOrder : List ExpertType :=
  [.lab_analysis, .medication, .radiology, .general_health]

/-- The score `sum(1 for kw in keywords if kw in query_lower)`. -/
def keywordScore (keywords : List String) (query_lower : String) : Nat :=
  (keywords.filter (fun kw => strContains query_lower kw)).length

/-- The `scores` dict of `route` as an association list in insertion order:
one entry per expert with a non-empty keyword list and a positive score. -/
def scoresFor (experts : ExpertType → ExpertConfig) (query_lower : String) :
    List (ExpertType × Nat) :=
  expertOrder.filterMap (fun expert_type =>
    let config := experts expert_type
    if config.keywords.isEmpty then none
    else
      let score := keywordScore config.keywords query_lower
      if score > 0 then some (expert_type, score) else none)

/-- Helper of `maxByScore`: fold that keeps the earlier entry on ties. -/
def maxByScoreGo (best : ExpertType) (bestScore : Nat) :
    List (ExpertType × Nat) → ExpertType
  | [] => best
  | (et, s) :: rest =>
    if bestScore < s then maxByScoreGo et s rest else maxByScoreGo best bestScore rest

/-- Python `max(scores, key=scores.get)` on the insertion-ordered dict: the
first key attaining the maximal value (`None` on the empty dict). -/
def maxByScore : List (ExpertType × Nat) → Option ExpertType
  | [] => none
  | (et, s) :: rest => some (maxByScoreGo et s rest)

/-- Embedding of `MedicalExpertRouter.route`. -/
def route (query : String) (has_document : Bool) (user_role : String) :
    ExpertType × String :=
  let experts := expertsOf user_role
  let query_lower := pyLower query
  let scores := scoresFor experts query_lower
  match maxByScore scores with
  | some best_expert => (best_expert, (experts best_expert).system_prompt)
  | none => (.general_health, (experts .general_health).system_prompt)

/-- `SafetyGuard.BLOCKED_PATTERNS`. -/
def BLOCKED_PATTERNS : List String :=
  ["diagnose you with",
   "you have been diagnosed",
   "this confirms you have",
   "take this medication",
   "stop taking your",
   "i prescribe",
   "your treatment should be"]

/-- The `diagnosis_keywords` list of `SafetyGuard.check_input`. -/
def diagnosis_keywords : List String :=
  ["diagnose", "diagnosis", "what disease", "what condition",
   "am i sick", "do i have", "is it cancer", "prescribe"]

/-- The dict returned by `SafetyGuard.check_input`. -/
structure SafetyCheckResult where
  is_safe : Bool
  flags : List String
  modified_query : Option String
deriving DecidableEq, Repr

/-- Embedding of `SafetyGuard.check_input`. -/
def check_input (query : String) : SafetyCheckResult :=
  let query_lower := pyLower query
  let flags := diagnosis_keywords.filter (fun kw => strContains query_lower kw)
  { is_safe := flags.length == 0
    flags := flags
    modified_query := none }

/-- The blocked patterns the `sanitize_response` scan logs a warning for:
the scan runs only for the literal role string "patient" and has no effect
on the returned reply. -/
def blockedPatternWarnings (response : String) (user_role : String) : List String :=
  if user_role == "patient" then
    BLOCKED_PATTERNS.filter (fun pattern => strContains (pyLower response) pattern)
  else []

/-- Embedding of `SafetyGuard.sanitize_response`: the warning scan is
modelled by `blockedPatternWarnings` (a log call in the source, so it does
not feed into the value); then the disclaimer is appended unless the role
is a medical professional. -/
def sanitize_response (response : String) (user_role : String) : String :=
  let _warnings := blockedPatternWarnings response user_role
  if is_medical_professional user_role then response
  else response ++ "\n\n" ++ MEDICAL_DISCLAIMER

/-- One conversation message: the role/content dicts of `ai.py`. -/
structure Message where
  role : String
  content : String
deriving DecidableEq, Repr

/-- The `AIResponse` dataclass of `ai.py`. -/
structure AIResponse where
  content : String
  expert_used : String
  model_used : String
  tokens_used : Nat
  latency_ms : Nat
  has_document_context : Bool
deriving DecidableEq, Repr

/-- Outcome of the external model call made inside `AIService.chat`:
success with the reply text and token usage, an `httpx.HTTPStatusError`
(non-2xx status), or any other exception (timeout, malformed response,
network failure, ...). -/
inductive UpstreamOutcome where
  | success (text : String) (tokens : Nat)
  | httpStatusError (status_code : Nat)
  | otherFailure (message : String)
deriving DecidableEq, Repr

/-- Python `l[-10:]` generalised: the last `n` elements of a list. -/
def lastN {α : Type} (n : Nat) (l : List α) : List α :=
  l.drop (l.length - n)

/-- The flag `bool(document_context and document_context.strip())`. -/
def hasDocumentFlag (document_context : Option String) : Bool :=
  !(pyStrip (document_context.getD "")).data.isEmpty

/-- Document-context suffix `chat` appends to the system prompt for a
medical professional. -/
def DOC_SUFFIX_PROFESSIONAL : String :=
  "\n\nIMPORTANT: You have been provided with the patient\x27s medical document.\nPerform thorough clinical analysis of this document.\nReference specific values, dates, findings, and clinical correlations.\nProvide differential diagnoses where the data supports it.\nSuggest additional investigations or follow-up as clinically indicated.\nIf asked about something not in the document, clearly state that."

/-- Document-context suffix `chat` appends to the system prompt for a
non-professional (patient) tier. -/
def DOC_SUFFIX_PATIENT : String :=
  "\n\nIMPORTANT: You have been provided with the user\x27s medical document. \nUse this document to answer their questions accurately.\nReference specific values, dates, and findings from the document.\nIf asked about something not in the document, clearly state that."

/-- The clarifying note appended to the outgoing user message when the
safety check flagged the query and the audience is patient-tier. -/
def SAFETY_NOTE : String :=
  "\n\nNote: I understand you cannot provide medical diagnosis. \nPlease explain the relevant medical concepts instead."

/-- The system prompt `chat` ends up sending: the routed prompt, possibly
extended with one of the two document-awareness suffixes. -/
def chatSystemPrompt (query : String) (document_context : Option String)
    (user_role : String) : String :=
  let has_document := hasDocumentFlag document_context
  let system_prompt := (route query has_document user_role).2
  if has_document && is_medical_professional user_role then
    system_prompt ++ DOC_SUFFIX_PROFESSIONAL
  else if has_document then system_prompt ++ DOC_SUFFIX_PATIENT
  else system_prompt

/-- The `user_content` of `chat` before the safety note: the bare query,
or the query wrapped with the (8000-character-truncated) document text. -/
def chatBaseUserContent (query : String) (document_context : Option String) :
    String :=
  if hasDocumentFlag document_context then
    "Here is the medical document content:\n\n---BEGIN DOCUMENT---\n" ++
      (⟨(document_context.getD "").data.take 8000⟩ : String) ++
      "\n---END DOCUMENT---\n\nUser\x27s question: " ++ query ++
      "\n\nPlease answer based on the document content above."
  else query

/-- The final `user_content` of `chat`: the safety note is appended exactly
when the input check flagged the query and the role is not a medical
professional. -/
def chatUserContent (query : String) (document_context : Option String)
    (user_role : String) : String :=
  let base := chatBaseUserContent query document_context
  if !(check_input query).is_safe && !is_medical_professional user_role then
    base ++ SAFETY_NOTE
  else base

/-- The `messages` list `chat` hands to `_call_nvidia_api`: the last 10
history turns followed by the current user turn. -/
def chatMessages (query : String) (document_context : Option String)
    (conversation_history : List Message) (user_role : String) : List Message :=
  (lastN 10 conversation_history).map (fun msg => ⟨msg.role, msg.content⟩) ++
    [⟨"user", chatUserContent query document_context user_role⟩]

/-- The API payload built by `_call_nvidia_api`: a leading system message,
then the conversation messages with the role "model" renamed "assistant". -/
def buildApiMessages (messages : List Message) (system_prompt : String) :
    List Message :=
  ⟨"system", system_prompt⟩ ::
    messages.map (fun msg =>
      ⟨if msg.role == "model" then "assistant" else msg.role, msg.content⟩)

/-- The fixed apologetic text of the fallback reply (without disclaimer). -/
def FALLBACK_TEXT : String :=
  "I\x27m sorry, I encountered an error processing your request. Please try again later."

/-- The `AIResponse` built by the `except Exception` handler of `chat`. -/
def fallbackResponse (query : String) (document_context : Option String)
    (user_role : String) (latency_ms : Nat) : AIResponse :=
  let has_document := hasDocumentFlag document_context
  { content := FALLBACK_TEXT ++ "\n\n" ++ MEDICAL_DISCLAIMER
    expert_used := (route query has_document user_role).1.value
    model_used := NVIDIA_MODEL
    tokens_used := 0
    latency_ms := latency_ms
    has_document_context := has_document }

/-- Embedding of `AIService.chat`. The upstream call is modelled by the
`outcome` parameter and `available` models `bool(settings.NVIDIA_API_KEY)`;
`latency_ms` stands for the measured wall-clock latency. An unconfigured
service raises `AIServiceError` inside the `try`, which the generic
`except Exception` handler turns into the fallback response; so does any
non-`HTTPStatusError` failure of the call. An `httpx.HTTPStatusError` is
handled by its own `except` clause, which re-raises `AIServiceError` to the
caller (modelled as `Except.error` with the exception detail). -/
def chat (query : String) (document_context : Option String)
    (conversation_history : List Message) (user_role : String)
    (available : Bool) (outcome : UpstreamOutcome) (latency_ms : Nat) :
    Except String AIResponse :=
  let has_document := hasDocumentFlag document_context
  let expert_type := (route query has_document user_role).1
  let _messages := chatMessages query document_context conversation_history user_role
  if !available then
    .ok (fallbackResponse query document_context user_role latency_ms)
  else
    match outcome with
    | .success text tokens =>
      .ok { content := sanitize_response text user_role
            expert_used := expert_type.value
            model_used := NVIDIA_MODEL
            tokens_used := tokens
            latency_ms := latency_ms
            has_document_context := has_document }
    | .httpStatusError status_code =>
      .error ("AI service error: " ++ toString status_code)
    | .otherFailure _ =>
      .ok (fallbackResponse query document_context user_role latency_ms)

/-- Content of a `chat` result, when it did not raise. -/
def chatContent (r : Except String AIResponse) : Option String :=
  r.toOption.map AIResponse.content

/-- Index of a category in the fixed enumeration order of the tables. -/
def expertIndex : ExpertType → Nat
  | .lab_analysis => 0
  | .medication => 1
  | .radiology => 2
  | .general_health => 3

/-- All keywords of the three keyword-bearing categories (identical across
the two tier tables). -/
def allKeywords : List String :=
  (PATIENT_EXPERTS .lab_analysis).keywords ++
    (PATIENT_EXPERTS .medication).keywords ++
    (PATIENT_EXPERTS .radiology).keywords

/-! Helper lemmas shared by the claim theorems. -/

/-- The role test unfolds to the three-way string disjunction. -/
lemma is_medical_professional_iff (r : String) :
    is_medical_professional r = true ↔
      (r = "doctor" ∨ r = "clinician" ∨ r = "admin") := by
  simp [is_medical_professional, or_assoc]

/-- Keyword lists agree between the two tier tables, category by category. -/
lemma expertsOf_keywords (r : String) (et : ExpertType) :
    (expertsOf r et).keywords = (PATIENT_EXPERTS et).keywords := by
  unfold expertsOf
  cases is_medical_professional r
  · rfl
  · cases et <;> rfl

/-- The score table of `route` only depends on the keyword columns, which
coincide across tiers. -/
lemma scoresFor_expertsOf (r : String) (ql : String) :
    scoresFor (expertsOf r) ql = scoresFor PATIENT_EXPERTS ql := by
  simp only [scoresFor, expertOrder, List.filterMap_cons, List.filterMap_nil,
    expertsOf_keywords]

/-- A query containing none of the listed keywords scores zero. -/
lemma keywordScore_eq_zero (keywords : List String) (ql : String)
    (h : ∀ kw ∈ keywords, strContains ql kw = false) :
    keywordScore keywords ql = 0 := by
  unfold keywordScore
  rw [List.length_eq_zero, List.filter_eq_nil_iff]
  intro kw hkw
  simp [h kw hkw]

/-- C8: the document flag is dead in `route`. -/
lemma route_ignores_document (q : String) (hd1 hd2 : Bool) (r : String) :
    route q hd1 r = route q hd2 r := rfl

/-- C2 counterpart on the raw tables: an all-zero score table is empty. -/
lemma scoresFor_nil_of_no_keyword (role q : String)
    (h : ∀ kw ∈ allKeywords, strContains (pyLower q) kw = false) :
    scoresFor (expertsOf role) (pyLower q) = [] := by
  have hl : keywordScore (PATIENT_EXPERTS .lab_analysis).keywords (pyLower q) = 0 :=
    keywordScore_eq_zero _ _ (fun kw hkw => h kw (by simp [allKeywords, hkw]))
  have hm : keywordScore (PATIENT_EXPERTS .medication).keywords (pyLower q) = 0 :=
    keywordScore_eq_zero _ _ (fun kw hkw => h kw (by simp [allKeywords, hkw]))
  have hr : keywordScore (PATIENT_EXPERTS .radiology).keywords (pyLower q) = 0 :=
    keywordScore_eq_zero _ _ (fun kw hkw => h kw (by simp [allKeywords, hkw]))
  have e1 : (PATIENT_EXPERTS .lab_analysis).keywords.isEmpty = false := rfl
  have e2 : (PATIENT_EXPERTS .medication).keywords.isEmpty = false := rfl
  have e3 : (PATIENT_EXPERTS .radiology).keywords.isEmpty = false := rfl
  have e4 : (PATIENT_EXPERTS .general_health).keywords = [] := rfl
  rw [scoresFor_expertsOf]
  simp [scoresFor, expertOrder, hl, hm, hr, e1, e2, e3, e4]

/-! The claim theorems. -/

/-- C2: a query in which no keyword of any category occurs routes to the
`general_health` category with the general prompt of the resolved tier
(`route` is total by construction, so it always yields one of the four
enum members). -/
theorem claim2_route_fallback_general (q : String) (hd : Bool) (role : String)
    (h : ∀ kw ∈ allKeywords, strContains (pyLower q) kw = false) :
    route q hd role =
      (.general_health, (expertsOf role .general_health).system_prompt) := by
  have hs := scoresFor_nil_of_no_keyword role q h
  simp [route, hs, maxByScore]

/-- Witness for C2 at the concrete keyword-free query "hello". -/
theorem claim2_route_fallback_general_witness :
    route "hello" false "patient" =
      (.general_health, (expertsOf "patient" .general_health).system_prompt) :=
  claim2_route_fallback_general "hello" false "patient" (by decide)

/-- C4: exactly the roles "doctor", "clinician" and "admin" receive the
clinician-tier behavior (the `DOCTOR_EXPERTS` table and no disclaimer);
every other role string receives the patient-tier behavior (the
`PATIENT_EXPERTS` table and the appended disclaimer). -/
theorem claim4_tier_classification (role response : String) :
    ((role = "doctor" ∨ role = "clinician" ∨ role = "admin") →
      expertsOf role = DOCTOR_EXPERTS ∧
        sanitize_response response role = response) ∧
    (¬(role = "doctor" ∨ role = "clinician" ∨ role = "admin") →
      expertsOf role = PATIENT_EXPERTS ∧
        sanitize_response response role =
          response ++ "\n\n" ++ MEDICAL_DISCLAIMER) := by
  constructor
  · intro h
    have hb : is_medical_professional role = true :=
      (is_medical_professional_iff role).mpr h
    exact ⟨by simp [expertsOf, hb], by simp [sanitize_response, hb]⟩
  · intro h
    have hb : is_medical_professional role = false := by
      cases ht : is_medical_professional role
      · rfl
      · exact absurd ((is_medical_professional_iff role).mp ht) h
    exact ⟨by simp [expertsOf, hb], by simp [sanitize_response, hb]⟩

/-- Witness for C4: the role "admin" gets clinician-tier behavior and the
unrecognized role "nurse" gets patient-tier behavior. -/
theorem claim4_tier_classification_witness :
    (expertsOf "admin" = DOCTOR_EXPERTS ∧
      sanitize_response "ok" "admin" = "ok") ∧
    (expertsOf "nurse" = PATIENT_EXPERTS ∧
      sanitize_response "ok" "nurse" = "ok" ++ "\n\n" ++ MEDICAL_DISCLAIMER) :=
  ⟨(claim4_tier_classification "admin" "ok").1 (by simp),
   (claim4_tier_classification "nurse" "ok").2 (by simp)⟩

/-- C7: the blocked-pattern scan never alters the reply; the returned
string is exactly the input (clinician tier) or exactly the input followed
by the disclaimer suffix (otherwise), whatever `blockedPatternWarnings`
detected. -/
theorem claim7_sanitize_frame (response user_role : String) :
    (is_medical_professional user_role = true ∧
        sanitize_response response user_role = response) ∨
    (is_medical_professional user_role = false ∧
        sanitize_response response user_role =
          response ++ "\n\n" ++ MEDICAL_DISCLAIMER) := by
  cases h : is_medical_professional user_role
  · right
    exact ⟨rfl, by simp [sanitize_response, h]⟩
  · left
    exact ⟨rfl, by simp [sanitize_response, h]⟩

/-- C8: routing is a two-run invariant over the document flag: the result
of `route` is the same whether `has_document` is true or false. -/
theorem claim8_route_document_invariant (q : String) (role : String) :
    route q true role = route q false role :=
  route_ignores_document q true false role

/-- C10: the routed category is independent of the audience tier, because
the keyword lists coincide per category across the two tables. -/
theorem claim10_category_tier_invariant (q : String) (hd : Bool)
    (role1 role2 : String) :
    (route q hd role1).1 = (route q hd role2).1 := by
  simp only [route, scoresFor_expertsOf]
  cases maxByScore (scoresFor PATIENT_EXPERTS (pyLower q)) <;> rfl

/-- C9: the message list sent upstream is the last at most 10 history
turns, kept in their original order, followed by the current user turn;
everything earlier is dropped. -/
theorem claim9_history_window (q : String) (dc : Option String)
    (hist : List Message) (role : String) :
    chatMessages q dc hist role =
      hist.drop (hist.length - 10) ++ [⟨"user", chatUserContent q dc role⟩] ∧
    (hist.drop (hist.length - 10)).length ≤ 10 ∧
    (hist.drop (hist.length - 10)).length = min 10 hist.length ∧
    hist.take (hist.length - 10) ++ hist.drop (hist.length - 10) = hist := by
  have hmap : ∀ l : List Message,
      l.map (fun msg => (⟨msg.role, msg.content⟩ : Message)) = l := by
    intro l
    induction l with
    | nil => rfl
    | cons a t ih => simp [ih]
  refine ⟨?_, ?_, ?_, List.take_append_drop _ hist⟩
  · simp [chatMessages, lastN, hmap]
  · rw [List.length_drop]
    omega
  · rw [List.length_drop]
    omega

/-- C6: `check_input` is safe exactly when no diagnosis-seeking phrase
occurs in the lower-cased query, it never rewrites the query
(`modified_query` is always `None`), and the clarifying note is appended
to the outgoing user message exactly when the verdict is unsafe and the
role is not clinician-equivalent. -/
theorem claim6_input_check (q : String) (dc : Option String) (role : String) :
    ((check_input q).is_safe = true ↔
      ∀ kw ∈ diagnosis_keywords, strContains (pyLower q) kw = false) ∧
    (check_input q).modified_query = none ∧
    ((check_input q).is_safe = false → is_medical_professional role = false →
      chatUserContent q dc role = chatBaseUserContent q dc ++ SAFETY_NOTE) ∧
    ((check_input q).is_safe = true ∨ is_medical_professional role = true →
      chatUserContent q dc role = chatBaseUserContent q dc) := by
  refine ⟨?_, rfl, ?_, ?_⟩
  · simp only [check_input, beq_iff_eq, List.length_eq_zero, List.filter_eq_nil_iff]
    constructor
    · intro h kw hkw
      simpa using h kw hkw
    · intro h kw hkw
      simp [h kw hkw]
  · intro h1 h2
    simp [chatUserContent, h1, h2]
  · intro h
    rcases h with h | h <;> simp [chatUserContent, h]

/-- Witness for C6 at a diagnosis-seeking query from a patient. -/
theorem claim6_input_check_witness :
    (check_input "do i have diabetes").is_safe = false ∧
    (check_input "do i have diabetes").modified_query = none ∧
    chatUserContent "do i have diabetes" none "patient" =
      chatBaseUserContent "do i have diabetes" none ++ SAFETY_NOTE :=
  ⟨by decide, (claim6_input_check "do i have diabetes" none "patient").2.1,
    (claim6_input_check "do i have diabetes" none "patient").2.2.1
      (by decide) (by decide)⟩

/-- C3 counterexample: a non-2xx HTTP status from the upstream call is not
recovered; `chat` re-raises it to the caller as an `AIServiceError` (the
`except httpx.HTTPStatusError` clause raises, and a later `except` clause
of the same `try` cannot catch it). -/
theorem claim3_counterexample_http_raises :
    chat "hello" none [] "patient" true (.httpStatusError 500) 4 =
      .error "AI service error: 500" := rfl

/-- C3 amended: a timeout / malformed-response / other generic failure of
the upstream call, and the unconfigured service, are recovered into the
fallback `AIResponse` (apologetic text plus disclaimer, zero tokens, the
already-routed category); a non-2xx HTTP status, however, is re-raised as
`AIServiceError` to the caller. -/
theorem claim3_failure_handling (q : String) (dc : Option String)
    (hist : List Message) (role : String) (lat : Nat) :
    (∀ msg : String,
      chat q dc hist role true (.otherFailure msg) lat =
        .ok (fallbackResponse q dc role lat)) ∧
    (∀ outcome : UpstreamOutcome,
      chat q dc hist role false outcome lat =
        .ok (fallbackResponse q dc role lat)) ∧
    (∀ code : Nat,
      chat q dc hist role true (.httpStatusError code) lat =
        .error ("AI service error: " ++ toString code)) ∧
    (fallbackResponse q dc role lat).content =
      FALLBACK_TEXT ++ "\n\n" ++ MEDICAL_DISCLAIMER ∧
    (fallbackResponse q dc role lat).tokens_used = 0 ∧
    (fallbackResponse q dc role lat).expert_used =
      (route q (hasDocumentFlag dc) role).1.value :=
  ⟨fun _ => rfl, fun _ => rfl, fun _ => rfl, rfl, rfl, rfl⟩

/-- C5 counterexample: on the upstream-failure fallback path the reply of
a clinician-equivalent role ("doctor") does end with the appended medical
disclaimer, and that appended text differs from the bare apologetic text. -/
theorem claim5_counterexample_clinician_fallback :
    chatContent (chat "hello" none [] "doctor" true (.otherFailure "boom") 7) =
      some (FALLBACK_TEXT ++ "\n\n" ++ MEDICAL_DISCLAIMER) ∧
    FALLBACK_TEXT ++ "\n\n" ++ MEDICAL_DISCLAIMER ≠ FALLBACK_TEXT :=
  ⟨rfl, by decide⟩

/-- C5 amended: on the success path a patient-tier reply is the model text
with the disclaimer appended exactly once and a clinician-tier reply is the
model text unmodified; on the upstream-failure fallback path the reply
carries the disclaimer for every role, clinician tiers included. -/
theorem claim5_disclaimer (q : String) (dc : Option String)
    (hist : List Message) (role text msg : String) (tokens lat : Nat) :
    (is_medical_professional role = false →
      chatContent (chat q dc hist role true (.success text tokens) lat) =
        some (text ++ "\n\n" ++ MEDICAL_DISCLAIMER)) ∧
    (is_medical_professional role = true →
      chatContent (chat q dc hist role true (.success text tokens) lat) =
        some text) ∧
    chatContent (chat q dc hist role true (.otherFailure msg) lat) =
      some (FALLBACK_TEXT ++ "\n\n" ++ MEDICAL_DISCLAIMER) := by
  refine ⟨?_, ?_, rfl⟩
  · intro h
    simp [chat, chatContent, sanitize_response, h, Except.toOption]
  · intro h
    simp [chat, chatContent, sanitize_response, h, Except.toOption]

/-- Witness for C5 on both tiers of the success path. -/
theorem claim5_disclaimer_witness :
    chatContent (chat "hi" none [] "patient" true (.success "reply" 5) 3) =
      some ("reply" ++ "\n\n" ++ MEDICAL_DISCLAIMER) ∧
    chatContent (chat "hi" none [] "doctor" true (.success "reply" 5) 3) =
      some "reply" :=
  ⟨(claim5_disclaimer "hi" none [] "patient" "reply" "m" 5 3).1 (by decide),
   (claim5_disclaimer "hi" none [] "doctor" "reply" "m" 5 3).2.1 (by decide)⟩

/-- The fold of `maxByScore` keeps the incumbent when no later entry
strictly exceeds it (Python `max` returns the first maximum). -/
lemma maxByScoreGo_of_le (b : ExpertType) (bs : Nat)
    (l : List (ExpertType × Nat)) (h : ∀ p ∈ l, p.2 ≤ bs) :
    maxByScoreGo b bs l = b := by
  induction l with
  | nil => rfl
  | cons p t ih =>
    obtain ⟨et, s⟩ := p
    have hs : s ≤ bs := h (et, s) (by simp)
    rw [maxByScoreGo, if_neg (by omega)]
    exact ih (fun p2 hp2 => h p2 (by simp [hp2]))

/-- Explicit shape of the score table when the three keyword-bearing
categories have non-empty lists and the general one has none. -/
lemma scoresFor_eq_ifs (experts : ExpertType → ExpertConfig) (ql : String)
    (e1 : (experts .lab_analysis).keywords.isEmpty = false)
    (e2 : (experts .medication).keywords.isEmpty = false)
    (e3 : (experts .radiology).keywords.isEmpty = false)
    (e4 : (experts .general_health).keywords.isEmpty = true) :
    scoresFor experts ql =
      (if 0 < keywordScore (experts .lab_analysis).keywords ql then
        [(ExpertType.lab_analysis,
          keywordScore (experts .lab_analysis).keywords ql)] else []) ++
      (if 0 < keywordScore (experts .medication).keywords ql then
        [(ExpertType.medication,
          keywordScore (experts .medication).keywords ql)] else []) ++
      (if 0 < keywordScore (experts .radiology).keywords ql then
        [(ExpertType.radiology,
          keywordScore (experts .radiology).keywords ql)] else []) := by
  have n1 : (experts .lab_analysis).keywords ≠ [] := by
    intro hnil
    simp [hnil] at e1
  have n2 : (experts .medication).keywords ≠ [] := by
    intro hnil
    simp [hnil] at e2
  have n3 : (experts .radiology).keywords ≠ [] := by
    intro hnil
    simp [hnil] at e3
  have g4 : (experts .general_health).keywords = [] := by
    cases hk : (experts .general_health).keywords with
    | nil => rfl
    | cons a t =>
      rw [hk] at e4
      simp at e4
  by_cases h1 : 0 < keywordScore (experts .lab_analysis).keywords ql <;>
    by_cases h2 : 0 < keywordScore (experts .medication).keywords ql <;>
      by_cases h3 : 0 < keywordScore (experts .radiology).keywords ql <;>
        simp [scoresFor, expertOrder, n1, n2, n3, g4, h1, h2, h3]

/-- C1: `route` returns the category whose keyword count over the lowered
query is the top non-zero count, with the prompt of that category for the
resolved tier; on equal top counts the category earliest in the fixed
order lab_analysis, medication, radiology wins. -/
theorem claim1_route_max_first (q : String) (hd : Bool) (role : String)
    (et : ExpertType)
    (hmem : et ∈ [ExpertType.lab_analysis, ExpertType.medication,
      ExpertType.radiology])
    (hpos : 0 < keywordScore (expertsOf role et).keywords (pyLower q))
    (hmax : ∀ et2 ∈ [ExpertType.lab_analysis, ExpertType.medication,
        ExpertType.radiology],
      keywordScore (expertsOf role et2).keywords (pyLower q) ≤
        keywordScore (expertsOf role et).keywords (pyLower q))
    (hfirst : ∀ et2 ∈ [ExpertType.lab_analysis, ExpertType.medication,
        ExpertType.radiology],
      keywordScore (expertsOf role et2).keywords (pyLower q) =
        keywordScore (expertsOf role et).keywords (pyLower q) →
      expertIndex et ≤ expertIndex et2) :
    route q hd role = (et, (expertsOf role et).system_prompt) := by
  have e1 : (expertsOf role .lab_analysis).keywords.isEmpty = false := by
    rw [expertsOf_keywords]
    rfl
  have e2 : (expertsOf role .medication).keywords.isEmpty = false := by
    rw [expertsOf_keywords]
    rfl
  have e3 : (expertsOf role .radiology).keywords.isEmpty = false := by
    rw [expertsOf_keywords]
    rfl
  have e4 : (expertsOf role .general_health).keywords.isEmpty = true := by
    rw [expertsOf_keywords]
    rfl
  have hscores := scoresFor_eq_ifs (expertsOf role) (pyLower q) e1 e2 e3 e4
  have hlab : ExpertType.lab_analysis ∈ [ExpertType.lab_analysis,
      ExpertType.medication, ExpertType.radiology] := by simp
  have hmed : ExpertType.medication ∈ [ExpertType.lab_analysis,
      ExpertType.medication, ExpertType.radiology] := by simp
  have hrad : ExpertType.radiology ∈ [ExpertType.lab_analysis,
      ExpertType.medication, ExpertType.radiology] := by simp
  simp only [List.mem_cons, List.not_mem_nil, or_false] at hmem
  simp only [route]
  rw [hscores]
  rcases hmem with hm1 | hm2 | hm3
  · subst hm1
    have hm_le := hmax _ hmed
    have hr_le := hmax _ hrad
    rw [if_pos hpos]
    by_cases h2 : 0 < keywordScore (expertsOf role .medication).keywords (pyLower q) <;>
      by_cases h3 : 0 < keywordScore (expertsOf role .radiology).keywords (pyLower q) <;>
        simp [h2, h3, maxByScore, maxByScoreGo, Nat.not_lt.mpr hm_le,
          Nat.not_lt.mpr hr_le]
  · subst hm2
    have hl_lt : keywordScore (expertsOf role .lab_analysis).keywords (pyLower q) <
        keywordScore (expertsOf role .medication).keywords (pyLower q) := by
      rcases Nat.lt_or_ge (keywordScore (expertsOf role .lab_analysis).keywords
          (pyLower q)) (keywordScore (expertsOf role .medication).keywords
          (pyLower q)) with hlt | hge
      · exact hlt
      · have heq : keywordScore (expertsOf role .lab_analysis).keywords (pyLower q) =
            keywordScore (expertsOf role .medication).keywords (pyLower q) :=
          Nat.le_antisymm (hmax _ hlab) hge
        have := hfirst _ hlab heq
        simp [expertIndex] at this
    have hr_le := hmax _ hrad
    rw [if_pos hpos]
    by_cases h1 : 0 < keywordScore (expertsOf role .lab_analysis).keywords (pyLower q) <;>
      by_cases h3 : 0 < keywordScore (expertsOf role .radiology).keywords (pyLower q) <;>
        simp [h1, h3, maxByScore, maxByScoreGo, hl_lt, Nat.not_lt.mpr hr_le]
  · subst hm3
    have hl_lt : keywordScore (expertsOf role .lab_analysis).keywords (pyLower q) <
        keywordScore (expertsOf role .radiology).keywords (pyLower q) := by
      rcases Nat.lt_or_ge (keywordScore (expertsOf role .lab_analysis).keywords
          (pyLower q)) (keywordScore (expertsOf role .radiology).keywords
          (pyLower q)) with hlt | hge
      · exact hlt
      · have heq : keywordScore (expertsOf role .lab_analysis).keywords (pyLower q) =
            keywordScore (expertsOf role .radiology).keywords (pyLower q) :=
          Nat.le_antisymm (hmax _ hlab) hge
        have := hfirst _ hlab heq
        simp [expertIndex] at this
    have hm_lt : keywordScore (expertsOf role .medication).keywords (pyLower q) <
        keywordScore (expertsOf role .radiology).keywords (pyLower q) := by
      rcases Nat.lt_or_ge (keywordScore (expertsOf role .medication).keywords
          (pyLower q)) (keywordScore (expertsOf role .radiology).keywords
          (pyLower q)) with hlt | hge
      · exact hlt
      · have heq : keywordScore (expertsOf role .medication).keywords (pyLower q) =
            keywordScore (expertsOf role .radiology).keywords (pyLower q) :=
          Nat.le_antisymm (hmax _ hmed) hge
        have := hfirst _ hmed heq
        simp [expertIndex] at this
    rw [if_pos hpos]
    by_cases h1 : 0 < keywordScore (expertsOf role .lab_analysis).keywords (pyLower q) <;>
      by_cases h2 : 0 < keywordScore (expertsOf role .medication).keywords (pyLower q) <;>
        by_cases h12 : keywordScore (expertsOf role .lab_analysis).keywords (pyLower q) <
            keywordScore (expertsOf role .medication).keywords (pyLower q) <;>
          simp [h1, h2, h12, maxByScore, maxByScoreGo, hl_lt, hm_lt]

/-- Witness for C1: the query "cbc" scores 1 for lab_analysis and 0 for
the other categories, so routing returns the lab expert with its prompt. -/
theorem claim1_route_max_first_witness :
    route "cbc" false "patient" =
      (ExpertType.lab_analysis,
        (expertsOf "patient" .lab_analysis).system_prompt) :=
  claim1_route_max_first "cbc" false "patient" ExpertType.lab_analysis
    (by decide) (by decide) (by decide) (by decide)

end CareBridge
